import Mathlib

/-!
Verification of the Robot-vs-Human image classifier service
(prediction lifecycle, prediction store, evaluation engine).

Raw classifier scores and confidences are Python floats in the source;
they are modelled here as rationals. The opaque collaborators
(image validation, preprocessing, the neural network) are modelled as an
environment of oracles, exactly as the spec treats them: a validity
predicate on paths and a partial raw-score function (a score of none
models an exception raised while loading or classifying the image).
-/

namespace RobotHuman

/-! ## Confidence resolver (src/predict.py, RobotHumanPredictor) -/

/-- Mirror of `class_idx = int(prediction > 0.5)` in predict_single
(src/predict.py line 65). -/
def classIdx (r : ℚ) : Nat := if r > 1/2 then 1 else 0

/-- Mirror of the default `class_names = {0: 'human', 1: 'robot'}` lookup
(src/predict.py line 37). -/
def className (i : Nat) : String := if i = 1 then "robot" else "human"

/-- Mirror of the label/confidence resolution inside predict_single
(src/predict.py lines 64-72): `predicted_class = self.class_names[class_idx]`
and `confidence = prediction if class_idx == 1 else (1 - prediction)`. -/
def resolve (r : ℚ) : String × ℚ :=
  (className (classIdx r), if classIdx r = 1 then r else 1 - r)

/-- Pair of class probabilities as returned by
get_prediction_with_probabilities. -/
structure ProbPair where
  prob_human : ℚ
  prob_robot : ℚ
deriving DecidableEq

/-- Result shape of get_prediction_with_probabilities. -/
structure PredWithProbs where
  predicted_class : String
  confidence : ℚ
  probabilities : ProbPair
deriving DecidableEq

/-- Mirror of RobotHumanPredictor.get_prediction_with_probabilities
(src/predict.py lines 140-161), as a function of the raw model score:
`prob_robot = raw`, `prob_human = 1 - raw`, `class_idx = int(raw > 0.5)`,
`confidence = prob_robot if class_idx == 1 else prob_human`. -/
def get_prediction_with_probabilities (r : ℚ) : PredWithProbs :=
  { predicted_class := className (classIdx r)
    confidence := if classIdx r = 1 then r else 1 - r
    probabilities := { prob_human := 1 - r, prob_robot := r } }

/-! ## Strength buckets -/

/-- Qualitative confidence tier used for display and analytics. -/
inductive Strength where
  | very_high
  | high
  | moderate
  | low
deriving DecidableEq

/-- Mirror of the bucketing in the confidence_distribution analytics route
(src/api/app.py lines 307-318): `conf >= 0.9`, `elif conf >= 0.75`,
`elif conf >= 0.6`, `else` low. -/
def analyticsBucket (c : ℚ) : Strength :=
  if c ≥ 9/10 then Strength.very_high
  else if c ≥ 3/4 then Strength.high
  else if c ≥ 3/5 then Strength.moderate
  else Strength.low

/-- Mirror of the prediction-strength report in the CLI main
(src/predict.py lines 330-337): `confidence > 0.9`, `elif confidence > 0.7`,
`elif confidence > 0.5`, `else` low. -/
def cliBucket (c : ℚ) : Strength :=
  if c > 9/10 then Strength.very_high
  else if c > 7/10 then Strength.high
  else if c > 1/2 then Strength.moderate
  else Strength.low

/-! ## Helper lemmas for the resolver -/

lemma classIdx_of_gt {r : ℚ} (h : r > 1/2) : classIdx r = 1 := if_pos h

lemma classIdx_of_le {r : ℚ} (h : r ≤ 1/2) : classIdx r = 0 :=
  if_neg (not_lt.mpr h)

lemma resolve_robot {r : ℚ} (h : r > 1/2) : resolve r = ("robot", r) := by
  unfold resolve className
  rw [classIdx_of_gt h]
  simp

lemma resolve_human {r : ℚ} (h : r ≤ 1/2) : resolve r = ("human", 1 - r) := by
  unfold resolve className
  rw [classIdx_of_le h]
  simp

lemma gpwp_class (r : ℚ) :
    (get_prediction_with_probabilities r).predicted_class = (resolve r).1 := rfl

lemma gpwp_conf (r : ℚ) :
    (get_prediction_with_probabilities r).confidence = (resolve r).2 := rfl

lemma robot_ne_human : ("robot" : String) ≠ "human" := by decide

end RobotHuman

namespace RobotHuman

/-! ## Theorems for the resolver claims -/

/-- Claim C1: for every raw score r in [0,1], the resolution step of
predict_single assigns label robot exactly when r > 1/2 and human otherwise
(so r = 1/2 resolves to human), with confidence r on the robot branch and
1 - r on the human branch; get_prediction_with_probabilities resolves the
label and the confidence identically. -/
theorem C1_resolver_rule (r : ℚ) (h0 : 0 ≤ r) (h1 : r ≤ 1) :
    ((resolve r).1 = "robot" ↔ r > 1/2) ∧
    ((resolve r).1 = "human" ↔ r ≤ 1/2) ∧
    (r > 1/2 → resolve r = ("robot", r)) ∧
    (r ≤ 1/2 → resolve r = ("human", 1 - r)) ∧
    (get_prediction_with_probabilities r).predicted_class = (resolve r).1 ∧
    (get_prediction_with_probabilities r).confidence = (resolve r).2 := by
  by_cases h : r > 1/2
  · have hr := resolve_robot h
    refine ⟨?_, ?_, fun _ => hr, ?_, gpwp_class r, gpwp_conf r⟩
    · rw [hr]; exact ⟨fun _ => h, fun _ => rfl⟩
    · rw [hr]
      exact ⟨fun hc => absurd hc robot_ne_human, fun hc => absurd h (not_lt.mpr hc)⟩
    · intro hc; exact absurd h (not_lt.mpr hc)
  · push_neg at h
    have hr := resolve_human h
    refine ⟨?_, ?_, ?_, fun _ => hr, gpwp_class r, gpwp_conf r⟩
    · rw [hr]
      exact ⟨fun hc => absurd hc.symm robot_ne_human, fun hc => absurd hc (not_lt.mpr h)⟩
    · rw [hr]; exact ⟨fun _ => h, fun _ => rfl⟩
    · intro hc; exact absurd hc (not_lt.mpr h)

/-- Witness for C1 at the tie-break score 1/2. -/
theorem C1_resolver_rule_witness :
    ((0 : ℚ) ≤ 1/2 ∧ (1/2 : ℚ) ≤ 1) ∧
    (((resolve (1/2)).1 = "robot" ↔ (1/2 : ℚ) > 1/2) ∧
     ((resolve (1/2)).1 = "human" ↔ (1/2 : ℚ) ≤ 1/2) ∧
     ((1/2 : ℚ) > 1/2 → resolve (1/2) = ("robot", 1/2)) ∧
     ((1/2 : ℚ) ≤ 1/2 → resolve (1/2) = ("human", 1 - 1/2)) ∧
     (get_prediction_with_probabilities (1/2)).predicted_class = (resolve (1/2)).1 ∧
     (get_prediction_with_probabilities (1/2)).confidence = (resolve (1/2)).2) :=
  ⟨⟨by norm_num, by norm_num⟩, C1_resolver_rule (1/2) (by norm_num) (by norm_num)⟩

/-- Claim C2: for every raw score r in [0,1] the resolved confidence is at
least 1/2, with equality exactly at r = 1/2, where the label is human;
moreover resolve 0.9 = (robot, 0.9) and resolve 0.1 = (human, 0.9). -/
theorem C2_confidence_half (r : ℚ) (h0 : 0 ≤ r) (h1 : r ≤ 1) :
    ((resolve r).2 ≥ 1/2 ∧
     ((resolve r).2 = 1/2 ↔ r = 1/2) ∧
     (r = 1/2 → (resolve r).1 = "human")) ∧
    resolve (9/10) = ("robot", 9/10) ∧
    resolve (1/10) = ("human", 9/10) := by
  have h9 : resolve (9/10 : ℚ) = ("robot", 9/10) := resolve_robot (by norm_num)
  have hA : resolve (1/10 : ℚ) = ("human", 1 - 1/10) := resolve_human (by norm_num)
  refine ⟨?_, h9, by rw [hA]; norm_num⟩
  by_cases h : r > 1/2
  · rw [resolve_robot h]
    refine ⟨le_of_lt h, ?_, ?_⟩
    · constructor
      · intro he; simp only [Prod.snd] at he; linarith
      · intro he; rw [he] at h; exact absurd h (lt_irrefl _)
    · intro he; rw [he] at h; exact absurd h (lt_irrefl _)
  · push_neg at h
    rw [resolve_human h]
    refine ⟨by simp only [Prod.snd]; linarith, ?_, fun _ => rfl⟩
    constructor
    · intro he; simp only [Prod.snd] at he; linarith
    · intro he; simp only [Prod.snd]; rw [he]; norm_num

/-- Witness for C2 at the score 1/2. -/
theorem C2_confidence_half_witness :
    ((0 : ℚ) ≤ 1/2 ∧ (1/2 : ℚ) ≤ 1) ∧
    (((resolve (1/2)).2 ≥ 1/2 ∧
      ((resolve (1/2)).2 = 1/2 ↔ (1/2 : ℚ) = 1/2) ∧
      ((1/2 : ℚ) = 1/2 → (resolve (1/2)).1 = "human")) ∧
     resolve (9/10) = ("robot", 9/10) ∧
     resolve (1/10) = ("human", 9/10)) :=
  ⟨⟨by norm_num, by norm_num⟩, C2_confidence_half (1/2) (by norm_num) (by norm_num)⟩

/-! ## Bucket characterization lemmas -/

lemma analytics_very_high_iff (c : ℚ) :
    analyticsBucket c = Strength.very_high ↔ 9/10 ≤ c := by
  unfold analyticsBucket
  split_ifs with h1 h2 h3 <;> simp_all

lemma analytics_high_iff (c : ℚ) :
    analyticsBucket c = Strength.high ↔ 3/4 ≤ c ∧ c < 9/10 := by
  unfold analyticsBucket
  split_ifs with h1 h2 h3 <;> simp_all <;>
    first
      | linarith
      | (intros; linarith)
      | (constructor <;> intros <;> linarith)

lemma analytics_moderate_iff (c : ℚ) :
    analyticsBucket c = Strength.moderate ↔ 3/5 ≤ c ∧ c < 3/4 := by
  unfold analyticsBucket
  split_ifs with h1 h2 h3 <;> simp_all <;>
    first
      | linarith
      | (intros; linarith)
      | (constructor <;> intros <;> linarith)

lemma analytics_low_iff (c : ℚ) :
    analyticsBucket c = Strength.low ↔ c < 3/5 := by
  unfold analyticsBucket
  split_ifs with h1 h2 h3 <;> simp_all <;>
    first
      | linarith
      | (intros; linarith)
      | (constructor <;> intros <;> linarith)

lemma cli_very_high_iff (c : ℚ) :
    cliBucket c = Strength.very_high ↔ 9/10 < c := by
  unfold cliBucket
  split_ifs with h1 h2 h3 <;> simp_all

lemma cli_high_iff (c : ℚ) :
    cliBucket c = Strength.high ↔ 7/10 < c ∧ c ≤ 9/10 := by
  unfold cliBucket
  split_ifs with h1 h2 h3 <;> simp_all <;>
    first
      | linarith
      | (intros; linarith)
      | (constructor <;> intros <;> linarith)

lemma cli_moderate_iff (c : ℚ) :
    cliBucket c = Strength.moderate ↔ 1/2 < c ∧ c ≤ 7/10 := by
  unfold cliBucket
  split_ifs with h1 h2 h3 <;> simp_all <;>
    first
      | linarith
      | (intros; linarith)
      | (constructor <;> intros <;> linarith)

lemma cli_low_iff (c : ℚ) :
    cliBucket c = Strength.low ↔ c ≤ 1/2 := by
  unfold cliBucket
  split_ifs with h1 h2 h3 <;> simp_all <;>
    first
      | linarith
      | (intros; linarith)
      | (constructor <;> intros <;> linarith)

/-- Counterexample for claim C4: at confidence 0.9 the analytics view reports
very_high but the CLI reports only high, so the two bucketings do not share
boundaries. -/
theorem C4_counterexample :
    analyticsBucket (9/10) = Strength.very_high ∧
    cliBucket (9/10) = Strength.high ∧
    cliBucket (9/10) ≠ analyticsBucket (9/10) := by
  have ha : analyticsBucket (9/10 : ℚ) = Strength.very_high :=
    (analytics_very_high_iff _).mpr (by norm_num)
  have hc : cliBucket (9/10 : ℚ) = Strength.high :=
    (cli_high_iff _).mpr ⟨by norm_num, by norm_num⟩
  exact ⟨ha, hc, by rw [ha, hc]; simp⟩

/-- Claim C4 as amended: the analytics view buckets with lower-inclusive
boundaries very_high at 0.90, high at 0.75, moderate at 0.60, low below;
the CLI reporting however uses strict thresholds 0.9, 0.7, 0.5, so the two
bucketings differ (for example at 0.9, 0.72 and 0.55). -/
theorem C4_bucket_boundaries (c : ℚ) :
    ((analyticsBucket c = Strength.very_high ↔ 9/10 ≤ c) ∧
     (analyticsBucket c = Strength.high ↔ 3/4 ≤ c ∧ c < 9/10) ∧
     (analyticsBucket c = Strength.moderate ↔ 3/5 ≤ c ∧ c < 3/4) ∧
     (analyticsBucket c = Strength.low ↔ c < 3/5)) ∧
    ((cliBucket c = Strength.very_high ↔ 9/10 < c) ∧
     (cliBucket c = Strength.high ↔ 7/10 < c ∧ c ≤ 9/10) ∧
     (cliBucket c = Strength.moderate ↔ 1/2 < c ∧ c ≤ 7/10) ∧
     (cliBucket c = Strength.low ↔ c ≤ 1/2)) :=
  ⟨⟨analytics_very_high_iff c, analytics_high_iff c,
    analytics_moderate_iff c, analytics_low_iff c⟩,
   ⟨cli_very_high_iff c, cli_high_iff c,
    cli_moderate_iff c, cli_low_iff c⟩⟩

end RobotHuman

namespace RobotHuman

/-! ## Prediction store (src/database.py, PredictionDatabase)

The SQLite table is modelled as the list of its rows in timestamp-descending
order, so a `SELECT ... ORDER BY timestamp DESC` returns a filtered prefix of
that list. -/

/-- Row of the predictions table (src/database.py lines 55-63). -/
structure PredictionRecord where
  id : Nat
  filename : String
  predicted_class : String
  confidence : ℚ
  timestamp : String
deriving DecidableEq

/-- Python truthiness of the `limit` parameter applied to a result set:
`if limit:` appends a LIMIT clause only for a non-zero limit
(src/database.py lines 133-134 and 209-210), so both None and 0 leave the
query unbounded. -/
def applyLimit (limit : Option Nat) (rows : List PredictionRecord) :
    List PredictionRecord :=
  match limit with
  | none => rows
  | some 0 => rows
  | some (n + 1) => rows.take (n + 1)

/-- Mirror of PredictionDatabase.get_all_predictions
(src/database.py lines 119-139). -/
def get_all_predictions (db : List PredictionRecord) (limit : Option Nat) :
    List PredictionRecord :=
  applyLimit limit db

/-- Mirror of the clamping `max(0.0, min(1.0, x))` in
get_predictions_by_confidence (src/database.py lines 196-198) and in the
history route (src/api/app.py lines 159-160). -/
def clamp01 (x : ℚ) : ℚ := max 0 (min 1 x)

/-- Mirror of PredictionDatabase.get_predictions_by_confidence
(src/database.py lines 184-215): both bounds are clamped into [0,1] and the
rows satisfying `confidence BETWEEN min AND max` are returned; the bounds are
never swapped, so a min above the max yields the empty BETWEEN range. -/
def get_predictions_by_confidence (db : List PredictionRecord)
    (minC maxC : ℚ) (limit : Option Nat) : List PredictionRecord :=
  applyLimit limit
    (db.filter fun r =>
      decide (clamp01 minC ≤ r.confidence ∧ r.confidence ≤ clamp01 maxC))

/-- Mirror of the confidence filtering in the history route
(src/api/app.py lines 154-168): clamp both bounds, swap them when
min exceeds max, then call get_predictions_by_confidence. -/
def historyQuery (db : List PredictionRecord) (minC maxC : ℚ)
    (limit : Option Nat) : List PredictionRecord :=
  if clamp01 minC > clamp01 maxC then
    get_predictions_by_confidence db (clamp01 maxC) (clamp01 minC) limit
  else
    get_predictions_by_confidence db (clamp01 minC) (clamp01 maxC) limit

/-- Mirror of PredictionDatabase.delete_prediction
(src/database.py lines 262-275): `DELETE FROM predictions WHERE id = ?`
followed by `cursor.rowcount > 0`. The call is total: an absent id is a
false return, not an error. -/
def delete_prediction (db : List PredictionRecord) (pid : Nat) :
    Bool × List PredictionRecord :=
  (decide (0 < (db.filter fun r => r.id == pid).length),
   db.filter fun r => r.id != pid)

/-! ## Store helper lemmas -/

lemma applyLimit_nil (limit : Option Nat) : applyLimit limit [] = [] := by
  unfold applyLimit
  match limit with
  | none => rfl
  | some 0 => rfl
  | some (n + 1) => exact List.take_nil

lemma clamp01_nine_tenths : clamp01 (9/10 : ℚ) = 9/10 := by
  unfold clamp01
  rw [min_eq_right (by norm_num), max_eq_right (by norm_num)]

lemma clamp01_one_tenth : clamp01 (1/10 : ℚ) = 1/10 := by
  unfold clamp01
  rw [min_eq_right (by norm_num), max_eq_right (by norm_num)]

lemma by_confidence_empty_range (db : List PredictionRecord)
    (limit : Option Nat) :
    get_predictions_by_confidence db (9/10) (1/10) limit = [] := by
  unfold get_predictions_by_confidence
  have hf : (db.filter fun r =>
      decide (clamp01 (9/10) ≤ r.confidence ∧ r.confidence ≤ clamp01 (1/10)))
      = [] := by
    rw [List.filter_eq_nil_iff]
    intro a _
    rw [clamp01_nine_tenths, clamp01_one_tenth]
    simp only [decide_eq_true_eq, not_and]
    intro hlo hhi
    linarith
  rw [hf, applyLimit_nil]

/-! ## Theorems for the store claims -/

/-- Concrete record used in the C3 counterexample. -/
def midRecord : PredictionRecord :=
  { id := 1, filename := "a.jpg", predicted_class := "robot",
    confidence := 1/2, timestamp := "2025-01-01T00:00:00" }

/-- Counterexample for claim C3: the store-level confidence-range query does
not swap a min above the max, so with one stored record of confidence 1/2 the
query (min 0.9, max 0.1) returns nothing while (min 0.1, max 0.9) returns the
record. -/
theorem C3_counterexample :
    get_predictions_by_confidence [midRecord] (9/10) (1/10) none ≠
      get_predictions_by_confidence [midRecord] (1/10) (9/10) none := by
  have hl : get_predictions_by_confidence [midRecord] (9/10) (1/10) none = [] :=
    by_confidence_empty_range [midRecord] none
  have hr : get_predictions_by_confidence [midRecord] (1/10) (9/10) none
      = [midRecord] := by
    unfold get_predictions_by_confidence applyLimit
    rw [clamp01_one_tenth, clamp01_nine_tenths]
    have hconf : midRecord.confidence = 1/2 := rfl
    have hcond : decide ((1/10 : ℚ) ≤ midRecord.confidence ∧
        midRecord.confidence ≤ (9/10 : ℚ)) = true := by
      rw [decide_eq_true_eq, hconf]
      constructor <;> norm_num
    rw [List.filter_cons, if_pos hcond, List.filter_nil]
  rw [hl, hr]
  simp

/-- Claim C3 as amended: the store-level query clamps each bound into [0,1]
but never swaps them, so a min above the max denotes the empty range; the
swap is performed by the history endpoint before it reaches the store, and at
that level querying with the bounds exchanged returns identical records. -/
theorem C3_history_swap (db : List PredictionRecord) (minC maxC : ℚ)
    (limit : Option Nat) :
    historyQuery db minC maxC limit = historyQuery db maxC minC limit ∧
    get_predictions_by_confidence db (9/10) (1/10) limit = [] := by
  refine ⟨?_, by_confidence_empty_range db limit⟩
  unfold historyQuery
  rcases lt_trichotomy (clamp01 minC) (clamp01 maxC) with hlt | heq | hgt
  · rw [if_neg (not_lt.mpr (le_of_lt hlt)), if_pos hlt]
  · rw [heq]
  · rw [if_pos hgt, if_neg (not_lt.mpr (le_of_lt hgt))]

/-- Claim C8: delete-by-id returns true exactly when a record with that id
was stored (and removes all such records), and a second delete of the same id
on the resulting state always returns false; the operation is total, never an
error. -/
theorem C8_delete_idempotent (db : List PredictionRecord) (pid : Nat) :
    ((delete_prediction db pid).1 = true ↔ ∃ r ∈ db, r.id = pid) ∧
    (delete_prediction (delete_prediction db pid).2 pid).1 = false := by
  constructor
  · unfold delete_prediction
    simp only [decide_eq_true_eq, List.length_pos, ne_eq]
    constructor
    · intro h
      rcases List.exists_mem_of_ne_nil _ h with ⟨r, hmem⟩
      rcases List.mem_filter.mp hmem with ⟨hmem2, hid⟩
      exact ⟨r, hmem2, by simpa using hid⟩
    · rintro ⟨r, hmem, hid⟩
      exact List.ne_nil_of_mem (List.mem_filter.mpr ⟨hmem, by simpa using hid⟩)
  · have hnil : ((db.filter fun r => r.id != pid).filter
        fun r => r.id == pid) = [] := by
      rw [List.filter_eq_nil_iff]
      intro a ha
      have h2 := (List.mem_filter.mp ha).2
      simp only [bne_iff_ne, ne_eq] at h2
      simp [h2]
    unfold delete_prediction
    rw [hnil]
    rfl

/-- Claim C9: a limit of 0 is falsy in Python, so both retrieval operations
treat it exactly like an absent limit and return every matching record; only
a positive limit bounds the length of the result. -/
theorem C9_zero_limit_unbounded (db : List PredictionRecord)
    (minC maxC : ℚ) (n : Nat) :
    get_all_predictions db (some 0) = get_all_predictions db none ∧
    get_all_predictions db (some 0) = db ∧
    get_predictions_by_confidence db minC maxC (some 0) =
      get_predictions_by_confidence db minC maxC none ∧
    (get_all_predictions db (some (n + 1))).length ≤ n + 1 ∧
    (get_predictions_by_confidence db minC maxC (some (n + 1))).length
      ≤ n + 1 := by
  refine ⟨rfl, rfl, rfl, ?_, ?_⟩
  · unfold get_all_predictions applyLimit
    simpa using List.length_take_le (n + 1) db
  · unfold get_predictions_by_confidence applyLimit
    simpa using List.length_take_le (n + 1) _

end RobotHuman

namespace RobotHuman

/-! ## Predictor environment and batch prediction (src/predict.py) -/

/-- Opaque collaborators of the predictor: the format-validation predicate
(src/preprocess.py validate_image_format) and the composed
preprocess-then-score pipeline, whose value none models an exception raised
while loading or classifying the image. -/
structure PredictEnv where
  validFormat : String → Bool
  rawScore : String → Option ℚ

/-- Mirror of RobotHumanPredictor.predict_single
(src/predict.py lines 41-74): an invalid format raises ValueError, a failing
pipeline propagates its exception, otherwise the raw score is resolved into
(predicted class, confidence). -/
def predict_single (env : PredictEnv) (path : String) :
    Except String (String × ℚ) :=
  if env.validFormat path then
    match env.rawScore path with
    | some r => Except.ok (resolve r)
    | none => Except.error ("Error processing " ++ path)
  else
    Except.error ("Invalid image format: " ++ path)

/-- One loop iteration of RobotHumanPredictor.predict_batch
(src/predict.py lines 88-94): the try block appends the prediction, the
except block appends (path, error, 0.0). -/
def batchEntry (env : PredictEnv) (path : String) : String × String × ℚ :=
  match predict_single env path with
  | Except.ok (c, conf) => (path, c, conf)
  | Except.error _ => (path, "error", 0)

/-- Mirror of RobotHumanPredictor.predict_batch
(src/predict.py lines 76-96): the loop over image_paths appends one entry per
path, so the result is the image-path list mapped through batchEntry. -/
def predict_batch (env : PredictEnv) (paths : List String) :
    List (String × String × ℚ) :=
  paths.map (batchEntry env)

/-! ## Evaluation engine (src/predict.py, evaluate_on_test_set) -/

/-- One file of the labeled test corpus, as the evaluation loop sees it:
its name, whether `os.path.isfile` and validate_image_format accept it, and
the raw score the pipeline produces for it (none models an exception caught
by the per-file try block). -/
structure CorpusFile where
  filename : String
  valid : Bool
  outcome : Option ℚ
deriving DecidableEq

/-- A corpus file that contributes a sample to the evaluation: it passed
format validation and its processing did not raise. -/
def validProcessed (f : CorpusFile) : Bool := f.valid && f.outcome.isSome

/-- One entry of the per-sample `results` list built by evaluate_on_test_set
(src/predict.py lines 189-195 and 210-216). -/
structure SampleResult where
  filename : String
  true_class : String
  predicted_class : String
  confidence : ℚ
  probabilities : ProbPair
deriving DecidableEq

/-- Per-class block of the classification report
(src/predict.py lines 269-282). The recall field carries the suffix _score
because recall alone is reserved in this development's proof language. -/
structure ClassMetrics where
  precision : ℚ
  recall_score : ℚ
  f1_score : ℚ
  support : Nat
deriving DecidableEq

/-- The confusion-matrix block of the returned dictionary
(src/predict.py lines 261-268). -/
structure ConfusionBlock where
  labels : List String
  matrix : List (List Nat)
  true_human_predicted_human : Nat
  true_human_predicted_robot : Nat
  true_robot_predicted_human : Nat
  true_robot_predicted_robot : Nat
deriving DecidableEq

/-- The dictionary returned by evaluate_on_test_set
(src/predict.py lines 256-285). -/
structure EvalResult where
  accuracy : ℚ
  total_samples : Nat
  human_samples : Nat
  robot_samples : Nat
  confusion_matrix : ConfusionBlock
  human_metrics : ClassMetrics
  robot_metrics : ClassMetrics
  avg_probs_true_human : ProbPair
  avg_probs_true_robot : ProbPair
  detailed_results : List SampleResult
deriving DecidableEq

/-- Handling of one directory entry in the evaluation loop
(src/predict.py lines 181-197): files rejected by `os.path.isfile` or
validate_image_format are passed over, a raised exception is printed and the
loop continues, and a successful prediction is appended to the results. -/
def processFile (trueLabel : String) (f : CorpusFile) : Option SampleResult :=
  if f.valid then
    match f.outcome with
    | some r =>
      some { filename := f.filename
             true_class := trueLabel
             predicted_class := (get_prediction_with_probabilities r).predicted_class
             confidence := (get_prediction_with_probabilities r).confidence
             probabilities := (get_prediction_with_probabilities r).probabilities }
    | none => none
  else none

/-- The per-directory loop of evaluate_on_test_set: every file of the
directory is processed in order and the successful samples are collected. -/
def processDir (trueLabel : String) (files : List CorpusFile) :
    List SampleResult :=
  files.filterMap (processFile trueLabel)

/-- Count of samples with the given true and predicted labels; this is the
entry semantics of sklearn confusion_matrix with labels ['human', 'robot']
(src/predict.py line 228). -/
def countMatch (samples : List SampleResult) (t p : String) : Nat :=
  samples.countP fun s => s.true_class == t && s.predicted_class == p

/-- Count of correctly predicted samples; sklearn accuracy_score is this
count over the total (src/predict.py line 224). -/
def correctCount (samples : List SampleResult) : Nat :=
  samples.countP fun s => s.true_class == s.predicted_class

/-- Per-class precision/recall/F1/support of sklearn classification_report
with zero_division=0 (src/predict.py lines 231-237). -/
def classMetricsFor (samples : List SampleResult) (c : String) : ClassMetrics :=
  { precision :=
      if samples.countP (fun s => s.predicted_class == c) = 0 then 0
      else (countMatch samples c c : ℚ) /
        (samples.countP (fun s => s.predicted_class == c) : ℚ)
    recall_score :=
      if samples.countP (fun s => s.true_class == c) = 0 then 0
      else (countMatch samples c c : ℚ) /
        (samples.countP (fun s => s.true_class == c) : ℚ)
    f1_score :=
      (fun p r => if p + r = 0 then 0 else 2 * p * r / (p + r))
        (if samples.countP (fun s => s.predicted_class == c) = 0 then 0
         else (countMatch samples c c : ℚ) /
           (samples.countP (fun s => s.predicted_class == c) : ℚ))
        (if samples.countP (fun s => s.true_class == c) = 0 then 0
         else (countMatch samples c c : ℚ) /
           (samples.countP (fun s => s.true_class == c) : ℚ))
    support := samples.countP fun s => s.true_class == c }

/-- Average probability pair over the samples of one true class
(src/predict.py lines 239-254): sums divided by the class count when it is
positive, the untouched zero sums otherwise. -/
def avgProbs (samples : List SampleResult) (c : String) : ProbPair :=
  (fun inClass =>
    if 0 < inClass.length then
      { prob_human := (inClass.map fun s => s.probabilities.prob_human).sum
          / (inClass.length : ℚ)
        prob_robot := (inClass.map fun s => s.probabilities.prob_robot).sum
          / (inClass.length : ℚ) }
    else
      { prob_human := (inClass.map fun s => s.probabilities.prob_human).sum
        prob_robot := (inClass.map fun s => s.probabilities.prob_robot).sum })
    (samples.filter fun s => s.true_class == c)

/-- Assembly of the metrics dictionary of evaluate_on_test_set
(src/predict.py lines 223-285) from the collected samples. -/
def buildEvalResult (rs : List SampleResult) : EvalResult :=
  { accuracy := (correctCount rs : ℚ) / (rs.length : ℚ)
    total_samples := rs.length
    human_samples := rs.countP fun s => s.true_class == "human"
    robot_samples := rs.countP fun s => s.true_class == "robot"
    confusion_matrix :=
      { labels := ["human", "robot"]
        matrix := [[countMatch rs "human" "human", countMatch rs "human" "robot"],
                   [countMatch rs "robot" "human", countMatch rs "robot" "robot"]]
        true_human_predicted_human := countMatch rs "human" "human"
        true_human_predicted_robot := countMatch rs "human" "robot"
        true_robot_predicted_human := countMatch rs "robot" "human"
        true_robot_predicted_robot := countMatch rs "robot" "robot" }
    human_metrics := classMetricsFor rs "human"
    robot_metrics := classMetricsFor rs "robot"
    avg_probs_true_human := avgProbs rs "human"
    avg_probs_true_robot := avgProbs rs "robot"
    detailed_results := rs }

/-- Mirror of RobotHumanPredictor.evaluate_on_test_set
(src/predict.py lines 163-285): the human directory is enumerated first, then
the robot directory; if no sample survived validation and processing the
ValueError `No valid test images found` is raised, otherwise the metrics
dictionary is built over the collected samples. -/
def evaluate_on_test_set (humanFiles robotFiles : List CorpusFile) :
    Except String EvalResult :=
  if (processDir "human" humanFiles ++ processDir "robot" robotFiles).isEmpty then
    Except.error "No valid test images found"
  else
    Except.ok (buildEvalResult
      (processDir "human" humanFiles ++ processDir "robot" robotFiles))

end RobotHuman

namespace RobotHuman

/-! ## Evaluation helper lemmas -/

lemma processFile_isSome (t : String) (f : CorpusFile) :
    (processFile t f).isSome = validProcessed f := by
  unfold processFile validProcessed
  by_cases hv : f.valid
  · cases ho : f.outcome <;> simp [hv, ho]
  · simp [hv]

lemma processFile_none {t : String} {f : CorpusFile}
    (h : validProcessed f = false) : processFile t f = none := by
  have hs := processFile_isSome t f
  rw [h] at hs
  cases hpf : processFile t f with
  | none => rfl
  | some s => rw [hpf] at hs; simp at hs

lemma processDir_length (t : String) (fs : List CorpusFile) :
    (processDir t fs).length = fs.countP validProcessed := by
  induction fs with
  | nil => rfl
  | cons f fs ih =>
    unfold processDir at *
    rw [List.filterMap_cons, List.countP_cons]
    cases hpf : processFile t f with
    | none =>
      have hvp : validProcessed f = false := by
        rw [← processFile_isSome t f, hpf]; rfl
      simp [hvp, ih]
    | some s =>
      have hvp : validProcessed f = true := by
        rw [← processFile_isSome t f, hpf]; rfl
      simp [hvp, ih]

lemma results_length (hf rf : List CorpusFile) :
    (processDir "human" hf ++ processDir "robot" rf).length
      = (hf ++ rf).countP validProcessed := by
  rw [List.length_append, List.countP_append,
    processDir_length, processDir_length]

lemma processDir_filter (t : String) (fs : List CorpusFile) :
    processDir t (fs.filter validProcessed) = processDir t fs := by
  induction fs with
  | nil => rfl
  | cons f fs ih =>
    by_cases hv : validProcessed f
    · rw [List.filter_cons_of_pos hv]
      unfold processDir at ih ⊢
      rw [List.filterMap_cons, List.filterMap_cons, ih]
    · rw [List.filter_cons_of_neg (by simpa using hv)]
      unfold processDir at ih ⊢
      rw [ih, List.filterMap_cons,
        processFile_none (Bool.not_eq_true _ ▸ by simpa using hv)]

lemma processDir_true_class (t : String) (fs : List CorpusFile) :
    ∀ s ∈ processDir t fs, s.true_class = t := by
  intro s hs
  unfold processDir at hs
  rcases List.mem_filterMap.mp hs with ⟨f, _, hpf⟩
  unfold processFile at hpf
  by_cases hv : f.valid
  · rw [if_pos hv] at hpf
    cases ho : f.outcome with
    | none => rw [ho] at hpf; cases hpf
    | some r =>
      rw [ho] at hpf
      have := Option.some.inj hpf
      rw [← this]
  · rw [if_neg hv] at hpf; cases hpf

lemma gpwp_pred_class (r : ℚ) :
    (get_prediction_with_probabilities r).predicted_class = "human" ∨
    (get_prediction_with_probabilities r).predicted_class = "robot" := by
  rw [gpwp_class]
  by_cases h : r > 1/2
  · right; rw [resolve_robot h]
  · left; rw [resolve_human (not_lt.mp h)]

lemma processDir_pred_class (t : String) (fs : List CorpusFile) :
    ∀ s ∈ processDir t fs,
      s.predicted_class = "human" ∨ s.predicted_class = "robot" := by
  intro s hs
  unfold processDir at hs
  rcases List.mem_filterMap.mp hs with ⟨f, _, hpf⟩
  unfold processFile at hpf
  by_cases hv : f.valid
  · rw [if_pos hv] at hpf
    cases ho : f.outcome with
    | none => rw [ho] at hpf; cases hpf
    | some r =>
      rw [ho] at hpf
      have hs2 := Option.some.inj hpf
      rw [← hs2]
      exact gpwp_pred_class r
  · rw [if_neg hv] at hpf; cases hpf

lemma beq_human_human : (("human" : String) == "human") = true := by decide

lemma beq_human_robot : (("human" : String) == "robot") = false := by decide

lemma beq_robot_human : (("robot" : String) == "human") = false := by decide

lemma beq_robot_robot : (("robot" : String) == "robot") = true := by decide

lemma correctCount_eq_trace (L : List SampleResult)
    (ht : ∀ s ∈ L, s.true_class = "human" ∨ s.true_class = "robot")
    (hp : ∀ s ∈ L, s.predicted_class = "human" ∨ s.predicted_class = "robot") :
    correctCount L
      = countMatch L "human" "human" + countMatch L "robot" "robot" := by
  induction L with
  | nil => rfl
  | cons s L ih =>
    unfold correctCount countMatch at *
    rw [List.countP_cons, List.countP_cons, List.countP_cons]
    have hts := ht s (List.mem_cons_self s L)
    have hps := hp s (List.mem_cons_self s L)
    have ihh := ih (fun x hx => ht x (List.mem_cons_of_mem s hx))
      (fun x hx => hp x (List.mem_cons_of_mem s hx))
    rcases hts with h1 | h1 <;> rcases hps with h2 | h2 <;>
      simp [h1, h2, beq_human_human, beq_human_robot,
        beq_robot_human, beq_robot_robot, ihh] <;>
      omega

end RobotHuman

namespace RobotHuman

/-! ## Theorems for the evaluation and batch claims -/

/-- Claim C5: evaluation raises the empty-corpus error exactly when zero
valid samples survive all skips; with at least one valid processed sample it
returns an EvaluationResult instead of raising. -/
theorem C5_empty_corpus_iff (hf rf : List CorpusFile) :
    (∃ res, evaluate_on_test_set hf rf = Except.ok res) ↔
      0 < (hf ++ rf).countP validProcessed := by
  unfold evaluate_on_test_set
  have hlen := results_length hf rf
  by_cases he : (processDir "human" hf ++ processDir "robot" rf).isEmpty
  · rw [if_pos he]
    rw [List.isEmpty_iff] at he
    constructor
    · rintro ⟨res, hres⟩
      cases hres
    · intro hpos
      rw [he] at hlen
      rw [List.length_nil] at hlen
      omega
  · rw [if_neg he]
    constructor
    · intro _
      have hne : processDir "human" hf ++ processDir "robot" rf ≠ [] := by
        intro h0
        exact he (List.isEmpty_iff.mpr h0)
      have := List.length_pos.mpr hne
      omega
    · intro _
      exact ⟨_, rfl⟩

/-- Corpus file that evaluates successfully, used in the C6 counterexample. -/
def goodFile : CorpusFile :=
  { filename := "g.jpg", valid := true, outcome := some (9/10) }

/-- Corpus file whose processing raises, used in the C6 counterexample. -/
def badFile : CorpusFile :=
  { filename := "b.jpg", valid := true, outcome := none }

/-- Counterexample for claim C6: a corpus containing the skipped file b.jpg
evaluates to exactly the same EvaluationResult as the corpus without it, and
that result is a success, so the skip is recorded nowhere the caller can
see. -/
theorem C6_counterexample :
    evaluate_on_test_set [goodFile, badFile] [] =
      evaluate_on_test_set [goodFile] [] ∧
    evaluate_on_test_set [goodFile, badFile] [] ≠
      Except.error "No valid test images found" := by
  constructor
  · rfl
  · intro h
    cases h

/-- Claim C6 as amended: a skipped sample (invalid format, or an exception
during processing) is only printed to the console; it leaves no trace in the
returned EvaluationResult, which equals the result of evaluating the corpus
with every skipped file removed. -/
theorem C6_skips_vanish (hf rf : List CorpusFile) :
    evaluate_on_test_set hf rf =
      evaluate_on_test_set (hf.filter validProcessed)
        (rf.filter validProcessed) := by
  unfold evaluate_on_test_set
  rw [processDir_filter, processDir_filter]

/-- Claim C7: with at least one valid sample, evaluation succeeds and its
confusion matrix is keyed by the fixed label order [human, robot], entry
(i, j) counting the detailed samples with true label i and predicted label j,
and the reported accuracy is the matrix trace over the number of valid
samples. -/
theorem C7_confusion_matrix (hf rf : List CorpusFile)
    (h : 0 < (hf ++ rf).countP validProcessed) :
    ∃ res, evaluate_on_test_set hf rf = Except.ok res ∧
      res.confusion_matrix.labels = ["human", "robot"] ∧
      res.confusion_matrix.matrix =
        [[countMatch res.detailed_results "human" "human",
          countMatch res.detailed_results "human" "robot"],
         [countMatch res.detailed_results "robot" "human",
          countMatch res.detailed_results "robot" "robot"]] ∧
      res.total_samples = res.detailed_results.length ∧
      res.accuracy =
        ((countMatch res.detailed_results "human" "human"
          + countMatch res.detailed_results "robot" "robot" : ℕ) : ℚ)
          / (res.total_samples : ℚ) := by
  have hlen := results_length hf rf
  have hne : ¬ (processDir "human" hf ++ processDir "robot" rf).isEmpty := by
    intro he
    rw [List.isEmpty_iff] at he
    rw [he] at hlen
    rw [List.length_nil] at hlen
    omega
  refine ⟨buildEvalResult (processDir "human" hf ++ processDir "robot" rf),
    ?_, rfl, rfl, rfl, ?_⟩
  · unfold evaluate_on_test_set
    rw [if_neg hne]
  · have ht : ∀ s ∈ processDir "human" hf ++ processDir "robot" rf,
        s.true_class = "human" ∨ s.true_class = "robot" := by
      intro s hs
      rcases List.mem_append.mp hs with hm | hm
      · exact Or.inl (processDir_true_class "human" hf s hm)
      · exact Or.inr (processDir_true_class "robot" rf s hm)
    have hp : ∀ s ∈ processDir "human" hf ++ processDir "robot" rf,
        s.predicted_class = "human" ∨ s.predicted_class = "robot" := by
      intro s hs
      rcases List.mem_append.mp hs with hm | hm
      · exact processDir_pred_class "human" hf s hm
      · exact processDir_pred_class "robot" rf s hm
    show (correctCount _ : ℚ) / _ = _
    rw [correctCount_eq_trace _ ht hp]
    rfl

/-- Witness corpus for C7: the human directory of the spec determinism test
(scores 0.1 and 0.3). -/
def witnessHumanDir : List CorpusFile :=
  [{ filename := "h1.jpg", valid := true, outcome := some (1/10) },
   { filename := "h2.jpg", valid := true, outcome := some (3/10) }]

/-- Witness corpus for C7: the robot directory of the spec determinism test
(scores 0.7 and 0.9). -/
def witnessRobotDir : List CorpusFile :=
  [{ filename := "r1.jpg", valid := true, outcome := some (7/10) },
   { filename := "r2.jpg", valid := true, outcome := some (9/10) }]

/-- Witness for C7 on the four-sample corpus of the spec determinism test. -/
theorem C7_confusion_matrix_witness :
    0 < (witnessHumanDir ++ witnessRobotDir).countP validProcessed ∧
    (∃ res, evaluate_on_test_set witnessHumanDir witnessRobotDir
        = Except.ok res ∧
      res.confusion_matrix.labels = ["human", "robot"] ∧
      res.confusion_matrix.matrix =
        [[countMatch res.detailed_results "human" "human",
          countMatch res.detailed_results "human" "robot"],
         [countMatch res.detailed_results "robot" "human",
          countMatch res.detailed_results "robot" "robot"]] ∧
      res.total_samples = res.detailed_results.length ∧
      res.accuracy =
        ((countMatch res.detailed_results "human" "human"
          + countMatch res.detailed_results "robot" "robot" : ℕ) : ℚ)
          / (res.total_samples : ℚ)) :=
  ⟨by decide, C7_confusion_matrix witnessHumanDir witnessRobotDir (by decide)⟩

/-- Claim C10: batch prediction returns one entry per input path, in input
order; a path whose prediction raises contributes (path, error, 0.0), a path
whose prediction succeeds contributes its resolved label and confidence, and
the entry at a position depends only on that path, so a failure never stops
the remaining items. -/
theorem C10_batch_errors (env : PredictEnv) (paths : List String) (i : Nat)
    (h : i < paths.length) :
    (predict_batch env paths).length = paths.length ∧
    ∃ p, paths[i]? = some p ∧
      ((∃ e, predict_single env p = Except.error e) →
        (predict_batch env paths)[i]? = some (p, "error", 0)) ∧
      (∀ c conf, predict_single env p = Except.ok (c, conf) →
        (predict_batch env paths)[i]? = some (p, c, conf)) := by
  refine ⟨by simp [predict_batch], paths.get ⟨i, h⟩, ?_, ?_, ?_⟩
  · exact List.getElem?_eq_getElem h
  · rintro ⟨e, he⟩
    unfold predict_batch
    rw [List.getElem?_map, List.getElem?_eq_getElem h]
    simp [batchEntry, show predict_single env paths[i] = Except.error e from he]
  · intro c conf hok
    unfold predict_batch
    rw [List.getElem?_map, List.getElem?_eq_getElem h]
    simp [batchEntry,
      show predict_single env paths[i] = Except.ok (c, conf) from hok]

/-- Concrete predictor environment for the C10 witness: every path has a
valid format, and exactly bad.jpg raises during processing. -/
def witnessEnv : PredictEnv :=
  { validFormat := fun _ => true
    rawScore := fun p => if p == "bad.jpg" then none else some (9/10) }

/-- Witness for C10 at index 1 of a three-path batch whose middle path
fails. -/
theorem C10_batch_errors_witness :
    1 < (["a.jpg", "bad.jpg", "c.jpg"] : List String).length ∧
    ((predict_batch witnessEnv ["a.jpg", "bad.jpg", "c.jpg"]).length
      = (["a.jpg", "bad.jpg", "c.jpg"] : List String).length ∧
    ∃ p, (["a.jpg", "bad.jpg", "c.jpg"] : List String)[1]? = some p ∧
      ((∃ e, predict_single witnessEnv p = Except.error e) →
        (predict_batch witnessEnv ["a.jpg", "bad.jpg", "c.jpg"])[1]?
          = some (p, "error", 0)) ∧
      (∀ c conf, predict_single witnessEnv p = Except.ok (c, conf) →
        (predict_batch witnessEnv ["a.jpg", "bad.jpg", "c.jpg"])[1]?
          = some (p, c, conf))) :=
  ⟨by decide,
   C10_batch_errors witnessEnv ["a.jpg", "bad.jpg", "c.jpg"] 1 (by decide)⟩

end RobotHuman
